import Mathlib

/-!
Verification of the flag-condition accumulator, form-value marshalling,
snackbar error handler and result-details routing of the grr UI excerpt.

The repository excerpt ships the test suites for `updateFlagConditionsForOS`,
the `ExtFlagsCondition` form component and the regex-match condition helpers,
but not their implementation files; those operations are modelled here from
the specification, resolving the specification open question about matching
semantics the way the authoritative reference tests force (a flag with mask
17 is updated by target mask 1, so matching is bitwise-AND overlap, not exact
equality). The snackbar handler and the routing table are embedded directly
from their sources.
-/

/-- The tri-state condition of a flag: UNSPECIFIED = 0, REQUIRE_SET = 1,
REQUIRE_UNSET = 2. -/
inductive MaskCondition where
  | UNSPECIFIED
  | REQUIRE_SET
  | REQUIRE_UNSET
deriving DecidableEq, Repr

/-- A named bit-flag definition, as the test data of
`updateFlagConditionsForOS` builds it: name, identifier, bitmask,
description and current tri-state condition. -/
structure FlagWithCondition where
  name : String
  identifier : String
  mask : Nat
  description : String
  condition : MaskCondition
deriving DecidableEq, Repr

/-- Modelled from the spec: the per-element update step of
`updateFlagConditionsForOS` (its implementation file is absent from the
excerpt; only its tests are). The spec open question about the matching
criterion is resolved as bitwise-AND overlap, the only semantics consistent
with the reference tests: a flag with mask 17 is updated by target mask 1. -/
def updateFlag (targetMask : Nat) (desiredCondition : MaskCondition)
    (f : FlagWithCondition) : FlagWithCondition :=
  if f.mask &&& targetMask ≠ 0 then { f with condition := desiredCondition } else f

/-- Modelled from the spec: `updateFlagConditionsForOS(flags, targetMask,
desiredCondition)` iterates the sequence and updates each matching element's
condition in place; in-place mutation of every element is embedded as a map
over the list. -/
def updateFlagConditionsForOS (flags : List FlagWithCondition) (targetMask : Nat)
    (desiredCondition : MaskCondition) : List FlagWithCondition :=
  flags.map (updateFlag targetMask desiredCondition)

/-- One in-place update of the element at index `i` (out-of-range indices do
nothing), used to state order-of-evaluation independence. -/
def applyAtIndex (targetMask : Nat) (desiredCondition : MaskCondition)
    (l : List FlagWithCondition) (i : Nat) : List FlagWithCondition :=
  match l[i]? with
  | some f => l.set i (updateFlag targetMask desiredCondition f)
  | none => l

/-- `updateFlag` preserves every field but `condition`; in particular the mask. -/
theorem updateFlag_mask (t : Nat) (c : MaskCondition) (f : FlagWithCondition) :
    (updateFlag t c f).mask = f.mask := by
  unfold updateFlag
  split <;> rfl

/-- `updateFlag` is idempotent. -/
theorem updateFlag_idem (t : Nat) (c : MaskCondition) (f : FlagWithCondition) :
    updateFlag t c (updateFlag t c f) = updateFlag t c f := by
  unfold updateFlag
  split <;> simp_all

/-- A non-matching element is not changed by `updateFlag`. -/
theorem updateFlag_of_disjoint (t : Nat) (c : MaskCondition) (f : FlagWithCondition)
    (h : f.mask &&& t = 0) : updateFlag t c f = f := by
  unfold updateFlag
  simp [h]

/-- A matching element's condition is set by `updateFlag`. -/
theorem updateFlag_of_overlap (t : Nat) (c : MaskCondition) (f : FlagWithCondition)
    (h : f.mask &&& t ≠ 0) : (updateFlag t c f).condition = c := by
  unfold updateFlag
  simp [h]

example :
    updateFlagConditionsForOS
      [⟨"test", "test", 4, "test", .UNSPECIFIED⟩] 4 .REQUIRE_SET
    = [⟨"test", "test", 4, "test", .REQUIRE_SET⟩] := by decide

example :
    updateFlagConditionsForOS
      [⟨"test", "test", 2, "test", .UNSPECIFIED⟩] 2 .REQUIRE_UNSET
    = [⟨"test", "test", 2, "test", .REQUIRE_UNSET⟩] := by decide

example :
    updateFlagConditionsForOS
      [⟨"test", "test", 17, "test", .UNSPECIFIED⟩,
       ⟨"test", "test", 1, "test", .UNSPECIFIED⟩] 1 .REQUIRE_SET
    = [⟨"test", "test", 17, "test", .REQUIRE_SET⟩,
       ⟨"test", "test", 1, "test", .REQUIRE_SET⟩] := by decide

example :
    updateFlagConditionsForOS
      [⟨"test", "test", 2, "test", .UNSPECIFIED⟩,
       ⟨"test", "test", 17, "test", .UNSPECIFIED⟩,
       ⟨"test", "test", 4, "test", .UNSPECIFIED⟩,
       ⟨"test", "test", 1, "test", .UNSPECIFIED⟩] 32 .REQUIRE_SET
    = [⟨"test", "test", 2, "test", .UNSPECIFIED⟩,
       ⟨"test", "test", 17, "test", .UNSPECIFIED⟩,
       ⟨"test", "test", 4, "test", .UNSPECIFIED⟩,
       ⟨"test", "test", 1, "test", .UNSPECIFIED⟩] := by decide

/-- Claim C1 counterexample: an element whose mask is bit-for-bit equal to
the target mask 0 keeps its prior condition, so the claim as stated (over
every target mask) fails at target mask 0. -/
theorem C1_counterexample :
    (updateFlagConditionsForOS
        [⟨"test", "test", 0, "test", .REQUIRE_SET⟩] 0 .UNSPECIFIED)
      = [⟨"test", "test", 0, "test", .REQUIRE_SET⟩]
    ∧ MaskCondition.REQUIRE_SET ≠ MaskCondition.UNSPECIFIED := by
  constructor
  · decide
  · decide

/-- Claim C1 (amended): for every nonzero target mask, every element whose
mask is bit-for-bit equal to the target mask has its condition equal to the
desired condition after `updateFlagConditionsForOS`, regardless of its prior
condition. -/
theorem C1_mask_equal_updated (flags : List FlagWithCondition) (t : Nat)
    (c : MaskCondition) (i : Nat) (hi : i < flags.length) (ht : t ≠ 0)
    (hm : (flags.get ⟨i, hi⟩).mask = t) :
    ((updateFlagConditionsForOS flags t c).get
      ⟨i, by simpa [updateFlagConditionsForOS] using hi⟩).condition = c := by
  simp only [updateFlagConditionsForOS, List.get_eq_getElem, List.getElem_map]
  apply updateFlag_of_overlap
  simp only [List.get_eq_getElem] at hm
  rw [hm]
  simpa using ht

/-- Claim C1 witness: the amended theorem at the first reference test input
(a single flag with mask 4, target mask 4, desired condition REQUIRE_SET). -/
theorem C1_witness :
    ((updateFlagConditionsForOS
        [⟨"test", "test", 4, "test", .UNSPECIFIED⟩] 4 .REQUIRE_SET).get
      ⟨0, by decide⟩).condition = .REQUIRE_SET :=
  C1_mask_equal_updated [⟨"test", "test", 4, "test", .UNSPECIFIED⟩] 4
    .REQUIRE_SET 0 (by decide) (by decide) (by decide)

/-- Claim C2 counterexample: an element with mask 17 (which is not
bit-for-bit equal to the target mask 1, but shares its low bit) is updated
by target mask 1, so it is not left unchanged. -/
theorem C2_counterexample :
    (updateFlagConditionsForOS
        [⟨"test", "test", 17, "test", .UNSPECIFIED⟩] 1 .REQUIRE_SET)
      ≠ [⟨"test", "test", 17, "test", .UNSPECIFIED⟩] := by
  decide

/-- Claim C2 (amended): every element whose mask shares no bits with the
target mask is left entirely unchanged (all its fields keep their prior
values) by `updateFlagConditionsForOS`; in particular an element with mask
17 is never updated by target mask 4 or 2, though it is updated by target
mask 1. -/
theorem C2_disjoint_unchanged (flags : List FlagWithCondition) (t : Nat)
    (c : MaskCondition) (i : Nat) (hi : i < flags.length)
    (hm : (flags.get ⟨i, hi⟩).mask &&& t = 0) :
    (updateFlagConditionsForOS flags t c).get
      ⟨i, by simpa [updateFlagConditionsForOS] using hi⟩ = flags.get ⟨i, hi⟩ := by
  simp only [updateFlagConditionsForOS, List.get_eq_getElem, List.getElem_map]
  simp only [List.get_eq_getElem] at hm
  exact updateFlag_of_disjoint t c _ hm

/-- Claim C2 witness: the amended theorem at the element with mask 17 and
target mask 4 (17 and 4 share no bits), which is left unchanged. -/
theorem C2_witness :
    (updateFlagConditionsForOS
        [⟨"test", "test", 17, "test", .UNSPECIFIED⟩] 4 .REQUIRE_SET).get
      ⟨0, by decide⟩ = ⟨"test", "test", 17, "test", .UNSPECIFIED⟩ :=
  C2_disjoint_unchanged [⟨"test", "test", 17, "test", .UNSPECIFIED⟩] 4
    .REQUIRE_SET 0 (by decide) (by decide)

/-- Claim C3 counterexample: a list holding one element with mask 17 and the
target mask 1 — the mask 1 is not present in the list (no element's mask
equals it), yet the call is not a no-op: the element's condition changes. -/
theorem C3_counterexample :
    (∀ f ∈ [(⟨"test", "test", 17, "test", .UNSPECIFIED⟩ : FlagWithCondition)],
      f.mask ≠ 1)
    ∧ (updateFlagConditionsForOS
        [⟨"test", "test", 17, "test", .UNSPECIFIED⟩] 1 .REQUIRE_SET)
      ≠ [⟨"test", "test", 17, "test", .UNSPECIFIED⟩] := by
  constructor
  · decide
  · decide

/-- Claim C3 (amended): when no element's mask shares any bits with the
target mask, `updateFlagConditionsForOS` is a no-op: it is a total function
(so it terminates normally and signals nothing) and returns the list with
every element, every field included, unchanged. -/
theorem C3_no_overlap_noop (flags : List FlagWithCondition) (t : Nat)
    (c : MaskCondition) (h : ∀ f ∈ flags, f.mask &&& t = 0) :
    updateFlagConditionsForOS flags t c = flags := by
  unfold updateFlagConditionsForOS
  induction flags with
  | nil => rfl
  | cons f fs ih =>
    simp only [List.map_cons]
    rw [updateFlag_of_disjoint t c f (h f (List.mem_cons_self f fs)),
      ih fun g hg => h g (List.mem_cons_of_mem f hg)]

/-- Claim C3 witness: the amended theorem at the fourth reference test input
(masks 2, 17, 4 and 1, target mask 32, which shares no bits with any of
them): the whole list is returned unchanged. -/
theorem C3_witness :
    updateFlagConditionsForOS
      [⟨"test", "test", 2, "test", .UNSPECIFIED⟩,
       ⟨"test", "test", 17, "test", .UNSPECIFIED⟩,
       ⟨"test", "test", 4, "test", .UNSPECIFIED⟩,
       ⟨"test", "test", 1, "test", .UNSPECIFIED⟩] 32 .REQUIRE_SET
    = [⟨"test", "test", 2, "test", .UNSPECIFIED⟩,
       ⟨"test", "test", 17, "test", .UNSPECIFIED⟩,
       ⟨"test", "test", 4, "test", .UNSPECIFIED⟩,
       ⟨"test", "test", 1, "test", .UNSPECIFIED⟩] :=
  C3_no_overlap_noop
    [⟨"test", "test", 2, "test", .UNSPECIFIED⟩,
     ⟨"test", "test", 17, "test", .UNSPECIFIED⟩,
     ⟨"test", "test", 4, "test", .UNSPECIFIED⟩,
     ⟨"test", "test", 1, "test", .UNSPECIFIED⟩] 32 .REQUIRE_SET (by decide)

/-- Claim C4: `updateFlagConditionsForOS` is idempotent — applying the
operation twice with the same target mask and desired condition yields the
same final list as applying it once. -/
theorem C4_idempotent (flags : List FlagWithCondition) (t : Nat)
    (c : MaskCondition) :
    updateFlagConditionsForOS (updateFlagConditionsForOS flags t c) t c
      = updateFlagConditionsForOS flags t c := by
  unfold updateFlagConditionsForOS
  rw [List.map_map]
  exact List.map_congr_left fun f _ => updateFlag_idem t c f

/-- Reading index `j` after one in-place update at index `i`: the element at
`i` is updated, every other position is untouched. -/
theorem getElem?_applyAtIndex (t : Nat) (c : MaskCondition)
    (l : List FlagWithCondition) (i j : Nat) :
    (applyAtIndex t c l i)[j]?
      = if j = i then (l[j]?).map (updateFlag t c) else l[j]? := by
  unfold applyAtIndex
  by_cases hj : j = i
  · subst hj
    cases h : l[j]? with
    | none => simp [h]
    | some f =>
      have hlt : j < l.length := by
        by_contra hge
        rw [List.getElem?_eq_none (by omega)] at h
        exact Option.noConfusion h
      simp [h, List.getElem?_set, hlt]
  · cases h : l[i]? with
    | none => simp [hj]
    | some f => simp [List.getElem?_set, hj, Ne.symm hj]

/-- Reading index `j` after in-place updates at each index of `is`, in that
order: position `j` is updated exactly when `j` occurs in `is` (duplicates
collapse because the per-element update is idempotent). -/
theorem getElem?_foldl_applyAtIndex (t : Nat) (c : MaskCondition) (is : List Nat)
    (l : List FlagWithCondition) (j : Nat) :
    (List.foldl (applyAtIndex t c) l is)[j]?
      = if j ∈ is then (l[j]?).map (updateFlag t c) else l[j]? := by
  induction is generalizing l with
  | nil => simp
  | cons i is ih =>
    simp only [List.foldl_cons, ih, getElem?_applyAtIndex, List.mem_cons]
    by_cases hij : j = i
    · subst hij
      by_cases hj : j ∈ is
      · simp only [hj, if_true, or_true, true_or, if_pos rfl]
        cases l[j]? <;> simp [updateFlag_idem]
      · simp [hj]
    · by_cases hj : j ∈ is <;> simp [hj, hij]

/-- Claim C5: the result of `updateFlagConditionsForOS` does not depend on
the order in which elements are visited — performing the by-index in-place
updates at the indices of any permutation of the index range produces
exactly the list the operation produces. -/
theorem C5_order_independent (l : List FlagWithCondition) (t : Nat)
    (c : MaskCondition) (is : List Nat)
    (h : is.Perm (List.range l.length)) :
    List.foldl (applyAtIndex t c) l is = updateFlagConditionsForOS l t c := by
  apply List.ext_getElem?
  intro j
  rw [getElem?_foldl_applyAtIndex]
  have hmem : j ∈ is ↔ j < l.length := by
    rw [h.mem_iff, List.mem_range]
  by_cases hj : j < l.length
  · simp [hmem, hj, updateFlagConditionsForOS]
  · have hnone : l[j]? = none := List.getElem?_eq_none (by omega)
    simp [hmem, hj, updateFlagConditionsForOS, hnone]

/-- Claim C5 witness: visiting the two elements of the third reference test
input in reversed index order (index 1, then index 0) produces exactly the
operation's result. -/
theorem C5_witness :
    List.foldl (applyAtIndex 1 .REQUIRE_SET)
      [⟨"test", "test", 17, "test", .UNSPECIFIED⟩,
       ⟨"test", "test", 1, "test", .UNSPECIFIED⟩] [1, 0]
    = updateFlagConditionsForOS
        [⟨"test", "test", 17, "test", .UNSPECIFIED⟩,
         ⟨"test", "test", 1, "test", .UNSPECIFIED⟩] 1 .REQUIRE_SET :=
  C5_order_independent
    [⟨"test", "test", 17, "test", .UNSPECIFIED⟩,
     ⟨"test", "test", 1, "test", .UNSPECIFIED⟩] 1 .REQUIRE_SET [1, 0] (by decide)

/-- Modelled from the spec: one UI toggle advances a tri-state condition
cyclically UNSPECIFIED, REQUIRE_SET, REQUIRE_UNSET and back (the
`ExtFlagsCondition` component implementation is absent from the excerpt;
only its template and tests are). -/
def nextCondition : MaskCondition → MaskCondition
  | .UNSPECIFIED => .REQUIRE_SET
  | .REQUIRE_SET => .REQUIRE_UNSET
  | .REQUIRE_UNSET => .UNSPECIFIED

/-- The per-element step of toggling the flag named `flagName`. -/
def toggleStep (flagName : String) (f : FlagWithCondition) : FlagWithCondition :=
  if f.name = flagName then { f with condition := nextCondition f.condition } else f

/-- Modelled from the spec: a UI toggle of the named flag advances that
flag's condition along the three-state cycle and leaves the others alone. -/
def toggleFlagByName (flagName : String) (flags : List FlagWithCondition) :
    List FlagWithCondition :=
  flags.map (toggleStep flagName)

/-- Modelled from the spec: the aggregate bitmask for one OS flag family and
one condition — the bitwise OR of the masks of the flags currently in that
condition. -/
def flagsBitsWith (c : MaskCondition) (flags : List FlagWithCondition) : Nat :=
  ((flags.filter fun f => f.condition == c).map (fun f => f.mask)).foldl
    (fun a m => a ||| m) 0

/-- The aggregate "set" bitmask: OR of the masks of the REQUIRE_SET flags. -/
def flagsBitsSet (flags : List FlagWithCondition) : Nat :=
  flagsBitsWith .REQUIRE_SET flags

/-- The aggregate "unset" bitmask: OR of the masks of the REQUIRE_UNSET flags. -/
def flagsBitsUnset (flags : List FlagWithCondition) : Nat :=
  flagsBitsWith .REQUIRE_UNSET flags

/-- The state of the extended-flags form: the Linux flag family and the
macOS flag family, each flag carrying its current tri-state condition. -/
structure ExtFlagsFormState where
  linuxFlags : List FlagWithCondition
  osxFlags : List FlagWithCondition

/-- The `FileFinderExtFlagsCondition` value the form exposes, as the tests
observe it: per-family "set" and "unset" aggregate bitmasks. -/
structure FileFinderExtFlagsCondition where
  linuxBitsSet : Nat
  linuxBitsUnset : Nat
  osxBitsSet : Nat
  osxBitsUnset : Nat
deriving DecidableEq, Repr

/-- Modelled from the spec: the form value exposed to the rest of the
system, computed from the two flag families. -/
def extFlagsFormValue (s : ExtFlagsFormState) : FileFinderExtFlagsCondition :=
  { linuxBitsSet := flagsBitsSet s.linuxFlags
    linuxBitsUnset := flagsBitsUnset s.linuxFlags
    osxBitsSet := flagsBitsSet s.osxFlags
    osxBitsUnset := flagsBitsUnset s.osxFlags }

/-- `toggleStep` preserves the flag's name. -/
theorem toggleStep_name (n : String) (f : FlagWithCondition) :
    (toggleStep n f).name = f.name := by
  unfold toggleStep
  split <;> rfl

/-- Three toggle steps return a flag to its starting state. -/
theorem toggleStep_three (n : String) (f : FlagWithCondition) :
    toggleStep n (toggleStep n (toggleStep n f)) = f := by
  obtain ⟨nm, idf, mk, ds, c⟩ := f
  unfold toggleStep
  by_cases h : nm = n
  · cases c <;> simp [h, nextCondition]
  · simp [h]

/-- Claim C6: starting from UNSPECIFIED, one toggle of a named flag yields
REQUIRE_SET, a second yields REQUIRE_UNSET, and a third returns it to
UNSPECIFIED — at which point the flag is in neither aggregate's contributing
condition (neither REQUIRE_SET nor REQUIRE_UNSET, so its mask is ORed into
neither bitmask) and the whole flag list is back to its starting state. -/
theorem C6_toggle_cycles (flags : List FlagWithCondition) (n : String) (i : Nat)
    (f0 : FlagWithCondition) (hf : flags[i]? = some f0) (hn : f0.name = n)
    (h0 : f0.condition = .UNSPECIFIED) :
    ((toggleFlagByName n flags)[i]?).map FlagWithCondition.condition
      = some .REQUIRE_SET
    ∧ ((toggleFlagByName n (toggleFlagByName n flags))[i]?).map
        FlagWithCondition.condition = some .REQUIRE_UNSET
    ∧ ((toggleFlagByName n (toggleFlagByName n
        (toggleFlagByName n flags)))[i]?).map FlagWithCondition.condition
      = some .UNSPECIFIED
    ∧ ((toggleFlagByName n (toggleFlagByName n
        (toggleFlagByName n flags)))[i]?).map FlagWithCondition.condition
      ≠ some .REQUIRE_SET
    ∧ ((toggleFlagByName n (toggleFlagByName n
        (toggleFlagByName n flags)))[i]?).map FlagWithCondition.condition
      ≠ some .REQUIRE_UNSET
    ∧ toggleFlagByName n (toggleFlagByName n (toggleFlagByName n flags))
      = flags := by
  have hstep : toggleStep n f0 = { f0 with condition := .REQUIRE_SET } := by
    unfold toggleStep
    simp [hn, h0, nextCondition]
  have hstep2 : toggleStep n (toggleStep n f0)
      = { f0 with condition := .REQUIRE_UNSET } := by
    rw [hstep]
    unfold toggleStep
    simp [hn, nextCondition]
  have hthree : toggleFlagByName n (toggleFlagByName n (toggleFlagByName n flags))
      = flags := by
    unfold toggleFlagByName
    rw [List.map_map, List.map_map]
    simp [Function.comp_def, toggleStep_three]
  refine ⟨?_, ?_, ?_, ?_, ?_, hthree⟩
  · simp [toggleFlagByName, List.getElem?_map, hf, hstep]
  · simp [toggleFlagByName, List.getElem?_map, hf, hstep2]
  · rw [hthree]
    simp [hf, h0]
  · rw [hthree]
    simp [hf, h0]
  · rw [hthree]
    simp [hf, h0]

/-- Claim C6 witness: toggling the macOS nodump flag one, two and three
times from the all-UNSPECIFIED start state. -/
theorem C6_witness :
    ((toggleFlagByName "UF_NODUMP"
        [⟨"UF_NODUMP", "nodump", 1, "nodump flag", .UNSPECIFIED⟩])[0]?).map
      FlagWithCondition.condition = some .REQUIRE_SET
    ∧ ((toggleFlagByName "UF_NODUMP" (toggleFlagByName "UF_NODUMP"
        [⟨"UF_NODUMP", "nodump", 1, "nodump flag", .UNSPECIFIED⟩]))[0]?).map
      FlagWithCondition.condition = some .REQUIRE_UNSET
    ∧ ((toggleFlagByName "UF_NODUMP" (toggleFlagByName "UF_NODUMP"
        (toggleFlagByName "UF_NODUMP"
          [⟨"UF_NODUMP", "nodump", 1, "nodump flag", .UNSPECIFIED⟩])))[0]?).map
      FlagWithCondition.condition = some .UNSPECIFIED
    ∧ ((toggleFlagByName "UF_NODUMP" (toggleFlagByName "UF_NODUMP"
        (toggleFlagByName "UF_NODUMP"
          [⟨"UF_NODUMP", "nodump", 1, "nodump flag", .UNSPECIFIED⟩])))[0]?).map
      FlagWithCondition.condition ≠ some .REQUIRE_SET
    ∧ ((toggleFlagByName "UF_NODUMP" (toggleFlagByName "UF_NODUMP"
        (toggleFlagByName "UF_NODUMP"
          [⟨"UF_NODUMP", "nodump", 1, "nodump flag", .UNSPECIFIED⟩])))[0]?).map
      FlagWithCondition.condition ≠ some .REQUIRE_UNSET
    ∧ toggleFlagByName "UF_NODUMP" (toggleFlagByName "UF_NODUMP"
        (toggleFlagByName "UF_NODUMP"
          [⟨"UF_NODUMP", "nodump", 1, "nodump flag", .UNSPECIFIED⟩]))
      = [⟨"UF_NODUMP", "nodump", 1, "nodump flag", .UNSPECIFIED⟩] :=
  C6_toggle_cycles [⟨"UF_NODUMP", "nodump", 1, "nodump flag", .UNSPECIFIED⟩]
    "UF_NODUMP" 0 ⟨"UF_NODUMP", "nodump", 1, "nodump flag", .UNSPECIFIED⟩
    (by decide) (by decide) (by decide)

/-- A bit of a left fold of bitwise OR is set exactly when it is set in the
accumulator or in some element of the list. -/
theorem testBit_foldl_or (ms : List Nat) (a : Nat) (j : Nat) :
    (ms.foldl (fun x m => x ||| m) a).testBit j
      = (a.testBit j || ms.any fun m => m.testBit j) := by
  induction ms generalizing a with
  | nil => simp
  | cons m ms ih =>
    simp [List.foldl_cons, ih, Nat.testBit_or, Bool.or_assoc]

/-- A bit of the per-condition aggregate bitmask is set exactly when some
flag currently in that condition has it set in its mask. -/
theorem testBit_flagsBitsWith (c : MaskCondition) (flags : List FlagWithCondition)
    (j : Nat) :
    (flagsBitsWith c flags).testBit j = true
      ↔ ∃ f ∈ flags, f.condition = c ∧ f.mask.testBit j = true := by
  unfold flagsBitsWith
  rw [testBit_foldl_or, Nat.zero_testBit, Bool.false_or, List.any_eq_true]
  constructor
  · rintro ⟨m, hm, hb⟩
    obtain ⟨f, hf, rfl⟩ := List.mem_map.mp hm
    rw [List.mem_filter] at hf
    exact ⟨f, hf.1, by simpa using hf.2, hb⟩
  · rintro ⟨f, hf, hc, hb⟩
    exact ⟨f.mask,
      List.mem_map.mpr ⟨f, List.mem_filter.mpr ⟨hf, by simpa using hc⟩, rfl⟩, hb⟩

/-- Claim C7: in every state of the extended-flags form, each family's "set"
bitmask has exactly the bits of the masks of that family's REQUIRE_SET
flags, each family's "unset" bitmask has exactly the bits of the masks of
that family's REQUIRE_UNSET flags, and no individual flag contributes to
both aggregates at once. -/
theorem C7_aggregate_bitmasks (s : ExtFlagsFormState) :
    (∀ j, ((extFlagsFormValue s).linuxBitsSet.testBit j = true
        ↔ ∃ f ∈ s.linuxFlags, f.condition = .REQUIRE_SET ∧ f.mask.testBit j = true))
    ∧ (∀ j, ((extFlagsFormValue s).linuxBitsUnset.testBit j = true
        ↔ ∃ f ∈ s.linuxFlags, f.condition = .REQUIRE_UNSET ∧ f.mask.testBit j = true))
    ∧ (∀ j, ((extFlagsFormValue s).osxBitsSet.testBit j = true
        ↔ ∃ f ∈ s.osxFlags, f.condition = .REQUIRE_SET ∧ f.mask.testBit j = true))
    ∧ (∀ j, ((extFlagsFormValue s).osxBitsUnset.testBit j = true
        ↔ ∃ f ∈ s.osxFlags, f.condition = .REQUIRE_UNSET ∧ f.mask.testBit j = true))
    ∧ (∀ f ∈ s.linuxFlags ++ s.osxFlags,
        ¬(f.condition = .REQUIRE_SET ∧ f.condition = .REQUIRE_UNSET)) := by
  refine ⟨fun j => testBit_flagsBitsWith _ _ j, fun j => testBit_flagsBitsWith _ _ j,
    fun j => testBit_flagsBitsWith _ _ j, fun j => testBit_flagsBitsWith _ _ j,
    fun f _ h => ?_⟩
  rw [h.1] at h
  exact MaskCondition.noConfusion h.2

/-- The base64 alphabet, as `btoa` uses it. -/
def base64Alphabet : List Char :=
  "ABCDEFGHIJKLMNOPQRSTUVWXYZabcdefghijklmnopqrstuvwxyz0123456789+/".toList

/-- The base64 digit for a 6-bit value. -/
def b64Char (n : Nat) : Char := base64Alphabet.getD n '='

/-- Base64-encode a byte list, three bytes to four digits, padding the last
group with `=` as `btoa` does. -/
def btoaBytes : List Nat → List Char
  | [] => []
  | [b1] => [b64Char (b1 / 4), b64Char (b1 % 4 * 16), '=', '=']
  | [b1, b2] =>
    [b64Char (b1 / 4), b64Char (b1 % 4 * 16 + b2 / 16), b64Char (b2 % 16 * 4), '=']
  | b1 :: b2 :: b3 :: rest =>
    b64Char (b1 / 4) :: b64Char (b1 % 4 * 16 + b2 / 16) ::
      b64Char (b2 % 16 * 4 + b3 / 64) :: b64Char (b3 % 64) :: btoaBytes rest

/-- The `btoa` built-in on a string of code points below 256: base64 of the
code-point bytes. -/
def btoa (s : String) : String := String.mk (btoaBytes (s.toList.map Char.toNat))

example : btoa "test" = "dGVzdA==" := by rfl
example : btoa "Ma" = "TWE=" := by rfl
example : btoa "Man" = "TWFu" := by rfl
example : btoa "" = "" := by rfl

/-- The regex-match mode, `FIRST_HIT` or `ALL_HITS`. -/
inductive FileFinderContentsRegexMatchConditionMode where
  | FIRST_HIT
  | ALL_HITS
deriving DecidableEq, Repr

/-- The regex-match condition form value: the raw regex, the mode and the
length as the number the form control holds. -/
structure RegexMatchFormValues where
  regex : String
  mode : FileFinderContentsRegexMatchConditionMode
  length : Rat
deriving DecidableEq, Repr

/-- The marshalled `FileFinderContentsRegexMatchCondition`: base64 regex,
mode, and the length as a decimal string. -/
structure FileFinderContentsRegexMatchCondition where
  regex : String
  mode : FileFinderContentsRegexMatchConditionMode
  length : String
deriving DecidableEq, Repr

/-- Truncation of a rational toward zero, as coercing a JS number to an
integer does. -/
def jsTrunc (q : Rat) : Int := Int.tdiv q.num (q.den : Int)

/-- Modelled from the spec: `formValuesToFileFinderContentsRegexMatchCondition`
(its implementation file is absent from the excerpt; only its test is)
base64-encodes the regex as by `btoa`, passes the mode through, and coerces
the length number to the decimal string of its integer part. -/
def formValuesToFileFinderContentsRegexMatchCondition
    (v : RegexMatchFormValues) : FileFinderContentsRegexMatchCondition :=
  { regex := btoa v.regex
    mode := v.mode
    length := toString (jsTrunc v.length) }

/-- On a non-negative rational, truncation toward zero is the floor. -/
theorem jsTrunc_eq_floor (q : Rat) (h : 0 ≤ q) : jsTrunc q = ⌊q⌋ := by
  unfold jsTrunc
  rw [Rat.floor_def]
  exact Int.tdiv_eq_ediv (Rat.num_nonneg.mpr h) (by positivity)

/-- Claim C8: the marshalled condition carries the regex base64-encoded as
by `btoa`, the mode unchanged, and the length as the decimal string of its
integer part — on the reference test input, length 20000000.999 becomes the
string "20000000" and regex "test" becomes its base64 encoding. -/
theorem C8_regex_match_marshalling (v : RegexMatchFormValues) :
    (formValuesToFileFinderContentsRegexMatchCondition v).regex = btoa v.regex
    ∧ (formValuesToFileFinderContentsRegexMatchCondition v).mode = v.mode
    ∧ (0 ≤ v.length →
        (formValuesToFileFinderContentsRegexMatchCondition v).length
          = toString ⌊v.length⌋)
    ∧ formValuesToFileFinderContentsRegexMatchCondition
        ⟨"test", .ALL_HITS, 20000000.999⟩
      = ⟨"dGVzdA==", .ALL_HITS, "20000000"⟩ := by
  have hl : jsTrunc (20000000.999 : ℚ) = 20000000 := by
    rw [jsTrunc_eq_floor _ (by norm_num)]
    norm_num
  refine ⟨rfl, rfl, fun h => ?_, ?_⟩
  · show toString (jsTrunc v.length) = toString ⌊v.length⌋
    rw [jsTrunc_eq_floor v.length h]
  · show (⟨btoa "test", .ALL_HITS, toString (jsTrunc (20000000.999 : ℚ))⟩ :
        FileFinderContentsRegexMatchCondition)
      = ⟨"dGVzdA==", .ALL_HITS, "20000000"⟩
    rw [hl]
    rfl

/-- A JS runtime value as `SnackBarErrorHandler.handleError` can receive it:
a plain string, an instance of `Error` (carrying its message), an instance
of `HttpErrorResponse` (which implements but does not extend `Error`, so it
is not an `Error` instance), or any other value; non-Error values carry
their `String(...)` conversion. -/
inductive JsValue where
  | str (s : String)
  | errorInstance (message : String)
  | httpErrorResponse (stringRep : String)
  | other (stringRep : String)
deriving DecidableEq, Repr

/-- The `instanceof Error` test. -/
def jsInstanceofError : JsValue → Bool
  | .errorInstance _ => true
  | _ => false

/-- The `instanceof HttpErrorResponse` test. -/
def jsInstanceofHttpErrorResponse : JsValue → Bool
  | .httpErrorResponse _ => true
  | _ => false

/-- The `String(...)` conversion. -/
def jsString : JsValue → String
  | .str s => s
  | .errorInstance m => "Error: " ++ m
  | .httpErrorResponse r => r
  | .other r => r

/-- The `.message` access performed under the `instanceof Error` guard. -/
def jsErrorMessage : JsValue → String
  | .errorInstance m => m
  | _ => ""

/-- `SnackBarErrorHandler.handleError`, embedded from the source: an `Error`
instance is first replaced by its message string; then, unless the value is
an `HttpErrorResponse`, an `ErrorSnackBar` is opened with `String(error)` as
its data. The result is the data of the snackbar opened, or `none` when no
snackbar is opened. -/
def handleError (error : JsValue) : Option String :=
  let error := if jsInstanceofError error then JsValue.str (jsErrorMessage error)
    else error
  if !(jsInstanceofHttpErrorResponse error) then some (jsString error) else none

/-- Claim C9: `handleError` opens a snackbar exactly when the value is not
an `HttpErrorResponse` instance; the data is the error's message string for
an `Error` instance and the `String(...)` conversion of the value otherwise;
HTTP error responses never produce a snackbar. -/
theorem C9_snackbar_handler (v : JsValue) :
    (handleError v = none ↔ jsInstanceofHttpErrorResponse v = true)
    ∧ (∀ m, v = .errorInstance m → handleError v = some m)
    ∧ (jsInstanceofError v = false → handleError v ≠ none →
        handleError v = some (jsString v)) := by
  cases v with
  | str s =>
    refine ⟨?_, ?_, ?_⟩ <;>
      simp [handleError, jsInstanceofError, jsInstanceofHttpErrorResponse, jsString]
  | errorInstance m =>
    refine ⟨?_, ?_, ?_⟩ <;>
      simp [handleError, jsInstanceofError, jsInstanceofHttpErrorResponse,
        jsErrorMessage, jsString]
  | httpErrorResponse r =>
    refine ⟨?_, ?_, ?_⟩ <;>
      simp [handleError, jsInstanceofError, jsInstanceofHttpErrorResponse]
  | other r =>
    refine ⟨?_, ?_, ?_⟩ <;>
      simp [handleError, jsInstanceofError, jsInstanceofHttpErrorResponse, jsString]

/-- A segment of an Angular route path: a literal segment or a `:name`
parameter. -/
inductive UrlSegmentPattern where
  | literal (text : String)
  | param (paramName : String)
deriving DecidableEq, Repr

/-- One route of an Angular routing table, with the fields `routing.ts`
uses: path, outlet, optional component and optional redirect target. -/
structure RouteDef where
  path : List UrlSegmentPattern
  outlet : String
  component : Option String
  redirectTo : Option (List UrlSegmentPattern)
deriving DecidableEq, Repr

/-- The routing table of the hunt result-details drawer, embedded from
`routing.ts`: the path strings split at the slashes, `:name` segments as
parameters; the redirect target string ends in a slash, so it carries a
trailing empty segment. -/
def HUNT_DETAILS_ROUTES : List RouteDef :=
  [ { path := [.literal "result-details", .param "key"]
      outlet := "drawer"
      component := none
      redirectTo := some [.literal "result-details", .param "key", .literal ""] },
    { path := [.literal "result-details", .param "key", .param "payloadType"]
      outlet := "drawer"
      component := some "HuntResultDetails"
      redirectTo := none } ]

/-- Match a route path against the segments of a URL, collecting parameter
bindings; the whole URL must be consumed. -/
def matchSegments :
    List UrlSegmentPattern → List String → Option (List (String × String))
  | [], [] => some []
  | .literal t :: ps, u :: us =>
    if t = u then matchSegments ps us else none
  | .param n :: ps, u :: us =>
    (matchSegments ps us).map fun bs => (n, u) :: bs
  | _, _ => none

/-- Substitute captured parameter bindings into a redirect target. -/
def substPatterns (bs : List (String × String))
    (ps : List UrlSegmentPattern) : List String :=
  ps.map fun p => match p with
    | .literal t => t
    | .param n => (bs.lookup n).getD ""

/-- The first route of the table whose path matches the URL, with its
parameter bindings. -/
def firstMatch :
    List RouteDef → List String → Option (RouteDef × List (String × String))
  | [], _ => none
  | r :: rs, url =>
    match matchSegments r.path url with
    | some bs => some (r, bs)
    | none => firstMatch rs url

/-- Resolve a drawer URL against a route table the way the Angular router
resolves this configuration: take the first route in order whose path
matches; apply its redirect at most once, substituting the captured
parameters into the target, and match the rewritten URL again; the result is
the component reached and the parameter bindings. -/
def resolveUrl (routes : List RouteDef) (url : List String) :
    Option (String × List (String × String)) :=
  match firstMatch routes url with
  | none => none
  | some (r, bs) =>
    match r.redirectTo with
    | none => r.component.map fun c => (c, bs)
    | some target =>
      match firstMatch routes (substPatterns bs target) with
      | none => none
      | some (r2, bs2) =>
        match r2.redirectTo with
        | none => r2.component.map fun c => (c, bs2)
        | some _ => none

/-- Claim C10: the table has exactly two routes, both on the drawer outlet;
the two-segment route carries no component and redirects to the trailing-
slash target, which the three-segment component route matches with an empty
payload type; so a result-details URL resolves to the HuntResultDetails
component with or without a payload type segment. -/
theorem C10_hunt_details_routes (k p : String) :
    HUNT_DETAILS_ROUTES.length = 2
    ∧ (HUNT_DETAILS_ROUTES.get ⟨0, by decide⟩).outlet = "drawer"
    ∧ (HUNT_DETAILS_ROUTES.get ⟨1, by decide⟩).outlet = "drawer"
    ∧ (HUNT_DETAILS_ROUTES.get ⟨0, by decide⟩).component = none
    ∧ (HUNT_DETAILS_ROUTES.get ⟨0, by decide⟩).redirectTo
      = some [.literal "result-details", .param "key", .literal ""]
    ∧ (HUNT_DETAILS_ROUTES.get ⟨1, by decide⟩).component = some "HuntResultDetails"
    ∧ resolveUrl HUNT_DETAILS_ROUTES ["result-details", k]
      = some ("HuntResultDetails", [("key", k), ("payloadType", "")])
    ∧ resolveUrl HUNT_DETAILS_ROUTES ["result-details", k, p]
      = some ("HuntResultDetails", [("key", k), ("payloadType", p)]) := by
  refine ⟨rfl, rfl, rfl, rfl, rfl, rfl, ?_, ?_⟩ <;>
    simp [resolveUrl, firstMatch, matchSegments, substPatterns,
      HUNT_DETAILS_ROUTES, List.lookup]
